import Mathlib

/-!
Verification model of the MQTT client API of this repository.

The definitions below are a shallow embedding of the C sources
`lib/source/mqtt/iot_mqtt_api.c` and
`lib/source/common/static_memory/iot_static_memory_common.c`.
Outcomes of external collaborators (the serializer, the task pool, the
network interface, the allocator) are passed in as boolean or abstract
parameters, exactly where the C code consumes their return values.
Functions of this repository that are declared but whose definitions are
not among the sources (`_IotMqtt_DecrementOperationReferences`,
`_IotMqtt_AddSubscriptions`, `_IotMqtt_RemoveSubscriptionByPacket`,
`_IotMqtt_RemoveSubscriptionByTopicFilter`, `_IotMqtt_CloseNetworkConnection`)
are modelled from the specification's description of them; each such
definition says so in its doc comment.
-/

/-- Error taxonomy of the library (`IotMqttError_t`). -/
inductive IotMqttError where
  | success
  | statusPending
  | initFailed
  | badParameter
  | noMemory
  | networkError
  | schedulingError
  | badResponse
  | timeout
  | serverRefused
  | retryNoResponse
deriving DecidableEq, Repr

/-- Operation kinds of the library (`IotMqttOperationType_t`). -/
inductive IotMqttOperationType where
  | connect
  | publishToServer
  | puback
  | subscribe
  | unsubscribe
  | pingreq
  | disconnect
deriving DecidableEq, Repr

/-- Keep-alive clamp performed by `_createMqttConnection` (iot_mqtt_api.c,
lines 350-374) when `awsIotMqttMode` is true.  The two constants
`_AWS_IOT_MQTT_SERVER_MIN_KEEPALIVE` and `_AWS_IOT_MQTT_SERVER_MAX_KEEPALIVE`
come from `iot_mqtt_internal.h`, which is not among the sources, so the
clamp is parametric in them (`minKeepAlive`, `maxKeepAlive`); the branch
structure is translated verbatim from the source. -/
def clampKeepAlive (minKeepAlive maxKeepAlive : Nat) (awsIotMqttMode : Bool)
    (keepAliveSeconds : Nat) : Nat :=
  if awsIotMqttMode = true then
    if keepAliveSeconds < minKeepAlive then minKeepAlive
    else if keepAliveSeconds > maxKeepAlive then maxKeepAlive
    else if keepAliveSeconds = 0 then maxKeepAlive
    else keepAliveSeconds
  else keepAliveSeconds

/-- Modelled from the spec: the AWS IoT keep-alive service limits named
`_AWS_IOT_MQTT_SERVER_MIN_KEEPALIVE` and `_AWS_IOT_MQTT_SERVER_MAX_KEEPALIVE`
by the spec are defined in `iot_mqtt_internal.h`, which is not among the
sources; AWS IoT bounds the keep-alive interval to 30..1200 seconds. -/
def AWS_IOT_MQTT_SERVER_MIN_KEEPALIVE : Nat := 30

/-- Modelled from the spec: see `AWS_IOT_MQTT_SERVER_MIN_KEEPALIVE`. -/
def AWS_IOT_MQTT_SERVER_MAX_KEEPALIVE : Nat := 1200

/-- The validation prefix of `IotMqtt_Connect` (iot_mqtt_api.c, lines
851-922): NULL network info, `_IotMqtt_ValidateConnect`, will-message
validation including the 16-bit payload-length bound (line 879), and the
previous-subscription validation for a persistent session.  The verdicts
of the external validators `_IotMqtt_ValidateConnect`,
`_IotMqtt_ValidatePublish` and `_IotMqtt_ValidateSubscriptionList` are
boolean parameters.  Returns `some error` when validation fails and
`none` when control reaches the network-creation phase. -/
def IotMqtt_ConnectValidate (networkInfoNull : Bool) (validateConnectOk : Bool)
    (hasWillInfo : Bool) (willValidatePublishOk : Bool) (willPayloadLength : Nat)
    (cleanSession : Bool) (hasPreviousSubscriptions : Bool)
    (previousSubscriptionsOk : Bool) : Option IotMqttError :=
  if networkInfoNull = true then some .badParameter
  else if validateConnectOk = false then some .badParameter
  else if hasWillInfo = true && willValidatePublishOk = false then some .badParameter
  else if hasWillInfo = true && willPayloadLength > 65535 then some .badParameter
  else if cleanSession = false && hasPreviousSubscriptions = true
          && previousSubscriptionsOk = false then some .badParameter
  else none

/-- Outcome of `IotMqtt_Connect`: the final status and whether a
connection object was handed to the caller. -/
structure ConnectResult where
  status : IotMqttError
  connectionEstablished : Bool
deriving DecidableEq, Repr

/-- `IotMqtt_Connect` as validation followed by the connection-establishment
phases.  Everything after validation (network creation, connection object,
CONNECT operation, wait for CONNACK, keep-alive scheduling) depends on
external collaborators and is abstracted as the parameter `laterPhases`;
when validation fails the source jumps to cleanup with the validation error
and no connection is ever created (`pNewMqttConnection` is still NULL). -/
def IotMqtt_Connect (networkInfoNull validateConnectOk hasWillInfo
    willValidatePublishOk : Bool) (willPayloadLength : Nat)
    (cleanSession hasPreviousSubscriptions previousSubscriptionsOk : Bool)
    (laterPhases : ConnectResult) : ConnectResult :=
  match IotMqtt_ConnectValidate networkInfoNull validateConnectOk hasWillInfo
      willValidatePublishOk willPayloadLength cleanSession
      hasPreviousSubscriptions previousSubscriptionsOk with
  | some e => { status := e, connectionEstablished := false }
  | none => laterPhases

/-- Result of `IotMqtt_Publish`. -/
structure PublishResult where
  /-- The returned `IotMqttError_t`. -/
  status : IotMqttError
  /-- `_IotMqtt_CreateOperation` was called and succeeded. -/
  operationCreated : Bool
  /-- `_IotMqtt_DestroyOperation` ran in the cleanup path. -/
  operationDestroyed : Bool
  /-- `*pPublishRef` was set to the new operation. -/
  refSet : Bool
  /-- `*pPublishRef` was reset to `IOT_MQTT_REFERENCE_INITIALIZER`. -/
  refCleared : Bool
  /-- The warning about an ignored QoS 0 reference parameter was logged. -/
  warnedIgnoredRef : Bool
  /-- `_IotMqtt_ScheduleOperation` was reached and succeeded. -/
  scheduled : Bool
deriving DecidableEq, Repr

/-- `IotMqtt_Publish` (iot_mqtt_api.c, lines 1446-1696).  `qos` is the
numeric value of `IotMqttQos_t` (the source only compares it with
`IOT_MQTT_QOS_0`).  External outcomes are parameters: `validatePublishOk`
(`_IotMqtt_ValidatePublish`), `createOk` (`_IotMqtt_CreateOperation`,
which fails with `NO_MEMORY`), `serializeOk` (the PUBLISH serializer,
which fails with `NO_MEMORY`), `scheduleOk` (`_IotMqtt_ScheduleOperation`,
which fails with `SCHEDULING_ERROR`). -/
def IotMqtt_Publish (validatePublishOk : Bool) (qos : Nat)
    (callbackInfoProvided waitableFlag refProvided : Bool)
    (createOk serializeOk scheduleOk : Bool) : PublishResult :=
  if validatePublishOk = false then
    ⟨.badParameter, false, false, false, false, false, false⟩
  else if qos = 0 && callbackInfoProvided = true then
    ⟨.badParameter, false, false, false, false, false, false⟩
  else if qos = 0 && waitableFlag = true then
    ⟨.badParameter, false, false, false, false, false, false⟩
  else
    let warned := qos = 0 && refProvided = true
    if waitableFlag = true && refProvided = false then
      ⟨.badParameter, false, false, false, false, warned, false⟩
    else if createOk = false then
      ⟨.noMemory, false, false, false, false, warned, false⟩
    else if serializeOk = false then
      ⟨.noMemory, true, true, false, false, warned, false⟩
    else
      let refSet := qos != 0 && refProvided = true
      if scheduleOk = false then
        ⟨.schedulingError, true, true, refSet, refSet, warned, false⟩
      else
        ⟨if qos > 0 then .statusPending else .success,
         true, false, refSet, false, warned, true⟩

/-- Search loop of `IotStaticMemory_FindFree`
(iot_static_memory_common.c, lines 119-142): scan the first `limit`
flags for the first `false`, mark it `true` and report its index. -/
def IotStaticMemory_FindFreeAux : List Bool → Nat → Option Nat × List Bool
  | l, 0 => (none, l)
  | [], _ + 1 => (none, [])
  | b :: rest, limit + 1 =>
    if b = false then (some 0, true :: rest)
    else
      let r := IotStaticMemory_FindFreeAux rest limit
      (r.1.map (· + 1), b :: r.2)

/-- `IotStaticMemory_FindFree` (iot_static_memory_common.c, lines
119-142).  The in-use flag array `pInUse` is a list of booleans; the
result is the returned index (`-1` when no flag below `limit` is free)
together with the flag array after the call. -/
def IotStaticMemory_FindFree (pInUse : List Bool) (limit : Nat) : Int × List Bool :=
  match IotStaticMemory_FindFreeAux pInUse limit with
  | (none, l) => (-1, l)
  | (some i, l) => ((i : Int), l)

/-- A subscription-table entry (`_mqttSubscription_t`): topic filter,
requested QoS, user callback (identified abstractly), the packet
identifier it was installed under, the tombstone flag and the callback
reference count. -/
structure MqttSubscription where
  topicFilter : String
  qos : Nat
  callback : Nat
  packetId : Nat
  unsubscribed : Bool
  references : Int
deriving DecidableEq, Repr

/-- An element of a user-supplied subscription list
(`IotMqttSubscription_t`). -/
structure IotMqttSubscription where
  topicFilter : String
  qos : Nat
  callback : Nat
deriving DecidableEq, Repr

/-- Modelled from the spec: one step of `_IotMqtt_AddSubscriptions`
(its definition is not among the sources).  "For each entry: if an
existing subscription has the same topic filter and callback, update its
QoS; otherwise append a new subscription tagged with `packetIdentifier`."
A fresh entry starts not tombstoned with reference count 0. -/
def addOneSubscription (table : List MqttSubscription) (packetId : Nat)
    (e : IotMqttSubscription) : List MqttSubscription :=
  if table.any fun s => s.topicFilter == e.topicFilter && s.callback == e.callback then
    table.map fun s =>
      if s.topicFilter == e.topicFilter && s.callback == e.callback then
        { s with qos := e.qos }
      else s
  else
    table ++ [⟨e.topicFilter, e.qos, e.callback, packetId, false, 0⟩]

/-- Modelled from the spec: `_IotMqtt_AddSubscriptions` over a whole
subscription list (see `addOneSubscription`). -/
def addSubscriptions (table : List MqttSubscription) (packetId : Nat) :
    List IotMqttSubscription → List MqttSubscription
  | [] => table
  | e :: rest => addSubscriptions (addOneSubscription table packetId e) packetId rest

/-- Modelled from the spec: `_IotMqtt_RemoveSubscriptionByPacket` with
order `-1` (its definition is not among the sources).  "Tombstone entries
carrying that identifier; `order=-1` means match all with this id";
tombstoned entries whose reference count is 0 are freed immediately,
entries still referenced by an executing callback stay, tombstoned. -/
def removeSubscriptionByPacket (table : List MqttSubscription) (packetId : Nat) :
    List MqttSubscription :=
  table.filterMap fun s =>
    if s.packetId = packetId then
      if s.references = 0 then none else some { s with unsubscribed := true }
    else some s

/-- Modelled from the spec: `_IotMqtt_RemoveSubscriptionByTopicFilter`
(its definition is not among the sources).  "Tombstone entries whose
topic filter matches any in the given list; remove those with refcount=0
immediately." -/
def removeSubscriptionByTopicFilter (table : List MqttSubscription)
    (list : List IotMqttSubscription) : List MqttSubscription :=
  table.filterMap fun s =>
    if list.any fun e => e.topicFilter == s.topicFilter then
      if s.references = 0 then none else some { s with unsubscribed := true }
    else some s

/-- Result of `_subscriptionCommon`. -/
structure SubscriptionCommonResult where
  /-- The returned `IotMqttError_t`. -/
  status : IotMqttError
  /-- The connection's subscription table after the call. -/
  table : List MqttSubscription
  /-- `*pSubscriptionRef` was set to the new operation. -/
  refSet : Bool
  /-- `*pSubscriptionRef` was reset to `IOT_MQTT_REFERENCE_INITIALIZER`. -/
  refCleared : Bool
  /-- `_IotMqtt_DestroyOperation` ran in the cleanup path. -/
  operationDestroyed : Bool
deriving DecidableEq, Repr

/-- `_subscriptionCommon` (iot_mqtt_api.c, lines 509-721), the shared
implementation of `IotMqtt_Subscribe` and `IotMqtt_Unsubscribe`, acting
on the connection's subscription table.  External outcomes are
parameters: `validOk` (`_IotMqtt_ValidateSubscriptionList`), `createOk`
(`_IotMqtt_CreateOperation`, fails with `NO_MEMORY`), `serializeOk` (the
SUBSCRIBE/UNSUBSCRIBE serializer, fails with `NO_MEMORY`), `addOk`
(`_IotMqtt_AddSubscriptions`, fails with `NO_MEMORY` leaving no partial
state), `scheduleOk` (`_IotMqtt_ScheduleOperation`, fails with
`SCHEDULING_ERROR`).  `packetId` is the packet identifier the serializer
assigns to the operation. -/
def subscriptionCommon (operation : IotMqttOperationType)
    (table : List MqttSubscription) (list : List IotMqttSubscription)
    (packetId : Nat) (validOk waitableFlag refProvided : Bool)
    (createOk serializeOk addOk scheduleOk : Bool) : SubscriptionCommonResult :=
  if validOk = false then
    ⟨.badParameter, table, false, false, false⟩
  else if waitableFlag = true && refProvided = false then
    ⟨.badParameter, table, false, false, false⟩
  else
    let table1 :=
      if operation = .unsubscribe then removeSubscriptionByTopicFilter table list
      else table
    if createOk = false then
      ⟨.noMemory, table1, false, false, false⟩
    else if serializeOk = false then
      ⟨.noMemory, table1, false, false, true⟩
    else if operation = .subscribe && addOk = false then
      ⟨.noMemory, table1, false, false, true⟩
    else
      let table2 :=
        if operation = .subscribe then addSubscriptions table1 packetId list
        else table1
      let refSet := refProvided
      if scheduleOk = false then
        let table3 :=
          if operation = .subscribe then removeSubscriptionByPacket table2 packetId
          else table2
        ⟨.schedulingError, table3, refSet, refProvided, true⟩
      else
        ⟨.statusPending, table2, refSet, false, false⟩

/-- Steps of `_subscriptionCommon`, in execution order. -/
inductive SubEvent where
  | validateList
  | removeByTopicFilter
  | createOperation
  | serializeOp
  | addSubs
  | setRef
  | scheduleSend
  | removeByPacket
  | clearRef
  | destroyOperation
deriving DecidableEq, Repr

/-- The sequence of steps `_subscriptionCommon` (iot_mqtt_api.c, lines
509-721) performs, as a trace of `SubEvent`s; the branch structure is
the same as in `subscriptionCommon`.  `createOperation`, `serializeOp`
and `scheduleSend` mark the calls themselves (whether or not they
succeed). -/
def subscriptionTrace (operation : IotMqttOperationType)
    (validOk waitableFlag refProvided createOk serializeOk addOk scheduleOk : Bool) :
    List SubEvent :=
  if validOk = false then [.validateList]
  else if waitableFlag = true && refProvided = false then [.validateList]
  else
    [.validateList]
    ++ (if operation = .unsubscribe then [.removeByTopicFilter] else [])
    ++ [.createOperation]
    ++ (if createOk = false then []
        else [.serializeOp]
          ++ (if serializeOk = false then [.destroyOperation]
              else (if operation = .subscribe then [.addSubs] else [])
                ++ (if operation = .subscribe && addOk = false then [.destroyOperation]
                    else (if refProvided = true then [.setRef] else [])
                      ++ [.scheduleSend]
                      ++ (if scheduleOk = false then
                            (if operation = .subscribe then [.removeByPacket] else [])
                            ++ (if refProvided = true then [.clearRef] else [])
                            ++ [.destroyOperation]
                          else []))))

/-- Steps of `_subscriptionCommon` that create, serialize or schedule the
outgoing packet. -/
def sendishEvent : SubEvent → Bool
  | .createOperation => true
  | .serializeOp => true
  | .scheduleSend => true
  | _ => false

/-- An operation sitting in one of a connection's two queues, reduced to
what `_mqttOperation_tryDestroy` needs: its reference count and whether a
`TryCancel` of its task-pool job would succeed. -/
structure QueuedOperation where
  references : Int
  cancelSucceeds : Bool
deriving DecidableEq, Repr

/-- The members of `_mqttConnection_t` that the modelled functions read or
write. -/
structure MqttConnection where
  awsIotMqttMode : Bool
  disconnected : Bool
  references : Int
  keepAliveMs : Nat
  nextKeepAliveMs : Nat
  pPingreqPacket : Bool
  pingreqPacketSize : Nat
  subscriptionList : List MqttSubscription
  pendingProcessing : List QueuedOperation
  pendingResponse : List QueuedOperation
deriving DecidableEq, Repr

/-- Modelled from the spec: `_IotMqtt_DecrementOperationReferences`
(iot_mqtt_operation.c is not among the sources).  With `cancelJob` set it
first tries to cancel the operation's task-pool job; only a successful
cancel (the job had not begun) frees that reference — on a failed cancel
nothing is decremented, the running job will release its own reference.
Without `cancelJob` it decrements unconditionally.  Returns the new
reference count and whether it reached 0 (the caller must then destroy
the operation). -/
def decrementOperationReferences (references : Int)
    (cancelJob cancelSucceeds : Bool) : Int × Bool :=
  if cancelJob = true && cancelSucceeds = false then (references, false)
  else (references - 1, references - 1 = 0)

/-- `_mqttOperation_tryDestroy` (iot_mqtt_api.c, lines 194-207):
decrement with job cancellation and report whether
`_IotMqtt_DestroyOperation` ran (which releases the operation's
reference on its connection). -/
def mqttOperation_tryDestroy (op : QueuedOperation) : Bool :=
  (decrementOperationReferences op.references true op.cancelSucceeds).2

/-- How many operations of a queue are destroyed by
`IotListDouble_RemoveAll(.., _mqttOperation_tryDestroy, ..)`; each
destroyed operation decrements the connection's reference count by 1. -/
def destroyedCount (queue : List QueuedOperation) : Int :=
  (queue.filter fun op => mqttOperation_tryDestroy op = true).length

/-- `_createKeepAliveJob` (iot_mqtt_api.c, lines 211-284).  It stores the
keep-alive interval in milliseconds, serializes a PINGREQ (`serializeOk`
is the external serializer's verdict; on failure the function returns
false with no reference taken), creates the task-pool job (asserted to
succeed in the source) and takes one connection reference for the
keep-alive.  `pingreqSize` is the size the serializer reports. -/
def createKeepAliveJob (serializeOk : Bool) (pingreqSize : Nat)
    (keepAliveSeconds : Nat) (c : MqttConnection) : Bool × MqttConnection :=
  let c1 := { c with keepAliveMs := keepAliveSeconds * 1000,
                     nextKeepAliveMs := keepAliveSeconds * 1000 }
  if serializeOk = false then (false, c1)
  else (true, { c1 with pPingreqPacket := true, pingreqPacketSize := pingreqSize,
                        references := c1.references + 1 })

/-- `_destroyMqttConnection` (iot_mqtt_api.c, lines 438-505): if
keep-alive is still allocated, free the PINGREQ packet, zero the
keep-alive fields and drop the keep-alive reference; then remove every
subscription (each is tombstoned and freed when unreferenced, and all
leave the list).  Mutex and network teardown touch no modelled field. -/
def destroyMqttConnection (c : MqttConnection) : MqttConnection :=
  let c1 :=
    if c.keepAliveMs ≠ 0 then
      { c with keepAliveMs := 0, pPingreqPacket := false, pingreqPacketSize := 0,
               references := c.references - 1 }
    else c
  { c1 with subscriptionList := [] }

/-- Modelled from the spec: `_IotMqtt_CloseNetworkConnection`
(iot_mqtt_network.c is not among the sources).  "Close the transport,
set `disconnected=true`"; "cancel the keep-alive job; free the
pre-serialized PINGREQ; zero keep-alive fields; drop the keep-alive
reference". -/
def closeNetworkConnection (c : MqttConnection) : MqttConnection :=
  let c1 := { c with disconnected := true }
  if c1.keepAliveMs ≠ 0 then
    { c1 with keepAliveMs := 0, pPingreqPacket := false, pingreqPacketSize := 0,
              references := c1.references - 1 }
  else c1

/-- Result of `IotMqtt_Disconnect`. -/
structure DisconnectResult where
  /-- The connection after the call (meaningless when `destroyed`). -/
  conn : MqttConnection
  /-- The reference count reached 0 and `_destroyMqttConnection` ran. -/
  destroyed : Bool
  /-- The DISCONNECT-packet phase ran (a DISCONNECT operation was
  created, serialized, scheduled and waited on). -/
  packetPhaseRan : Bool
  /-- `_IotMqtt_CloseNetworkConnection` was called. -/
  closedNetworkConnection : Bool
deriving Repr

/-- `IotMqtt_Disconnect` (iot_mqtt_api.c, lines 1185-1330).  The
DISCONNECT-packet phase (lines 1205-1296) runs only when the connection
is not already disconnected and `IOT_MQTT_FLAG_CLEANUP_ONLY` is unset;
its effect on the connection involves the task pool and the network and
is abstracted as `packetPhase`.  Unconditionally afterwards: close the
network connection (which also cleans up keep-alive and marks the
connection disconnected), cancel-and-try-destroy every operation in both
queues (each destroyed operation releases its connection reference), and
release the caller's reference, destroying the connection at 0. -/
def IotMqtt_Disconnect (packetPhase : MqttConnection → MqttConnection)
    (c : MqttConnection) (cleanupOnly : Bool) : DisconnectResult :=
  let ranPacketPhase := c.disconnected = false && cleanupOnly = false
  let c1 := if ranPacketPhase = true then packetPhase c else c
  let c2 := closeNetworkConnection c1
  let dropped := destroyedCount c2.pendingProcessing + destroyedCount c2.pendingResponse
  let c3 := { c2 with pendingProcessing := [], pendingResponse := [],
                      references := c2.references - dropped }
  let c4 := { c3 with references := c3.references - 1 }
  { conn := if c4.references = 0 then destroyMqttConnection c4 else c4,
    destroyed := c4.references = 0,
    packetPhaseRan := ranPacketPhase,
    closedNetworkConnection := true }

/-- Result of `IotMqtt_Wait`. -/
structure WaitResult where
  /-- The returned `IotMqttError_t`. -/
  status : IotMqttError
  /-- The operation's reference count after the call. -/
  opReferences : Int
  /-- The final decrement reached 0 and `_IotMqtt_DestroyOperation` ran. -/
  operationDestroyed : Bool
  /-- Subscriptions filed under the operation's packet identifier were
  rolled back (timed-out SUBSCRIBE). -/
  removedSubscriptions : Bool
deriving DecidableEq, Repr

/-- `IotMqtt_Wait` (iot_mqtt_api.c, lines 1752-1855).  External outcomes
are parameters: `validRef` (`_IotMqtt_ValidateReference`),
`disconnected` (the connection's flag read under the references mutex),
`timedOut` (the semaphore wait expiring), `cancelSucceeds` (whether the
`TryCancel` issued on the timeout path succeeds).  `opStatus` is the
completed operation's status and `references` the operation's reference
count at entry. -/
def IotMqtt_Wait (validRef disconnected timedOut cancelSucceeds : Bool)
    (operation : IotMqttOperationType) (opStatus : IotMqttError)
    (references : Int) : WaitResult :=
  if validRef = false then
    ⟨.badParameter, references, false, false⟩
  else
    let statusAndRefs :=
      if disconnected = true then ((.networkError : IotMqttError), references, false)
      else if timedOut = true then
        ((.timeout : IotMqttError),
         (decrementOperationReferences references true cancelSucceeds).1,
         operation = .subscribe)
      else (opStatus, references, false)
    let final := decrementOperationReferences statusAndRefs.2.1 false false
    ⟨statusAndRefs.1, final.1, final.2, statusAndRefs.2.2⟩

/-- The keep-alive clamp of `_createMqttConnection` sends a keep-alive of
0 to the minimum, not the maximum, whenever the minimum is positive: the
`keepAliveSeconds == 0` branch of the source is unreachable because
`0 < minKeepAlive` is tested first. -/
theorem clampKeepAlive_zero_eq_min (minKeepAlive maxKeepAlive : Nat)
    (h : 0 < minKeepAlive) :
    clampKeepAlive minKeepAlive maxKeepAlive true 0 = minKeepAlive := by
  simp [clampKeepAlive, h]

/-- Claim C1: in AWS IoT MQTT mode a keep-alive of 0 is claimed to clamp
to `_AWS_IOT_MQTT_SERVER_MAX_KEEPALIVE`; evaluating the clamp of
`_createMqttConnection` at `keepAliveSeconds = 0` with the AWS IoT
service limits shows it clamps to the minimum instead (the `== 0` branch
of the source is dead code, since `0 < MIN` is tested first). -/
theorem clampKeepAlive_zero_is_min_not_max :
    clampKeepAlive AWS_IOT_MQTT_SERVER_MIN_KEEPALIVE
        AWS_IOT_MQTT_SERVER_MAX_KEEPALIVE true 0
      = AWS_IOT_MQTT_SERVER_MIN_KEEPALIVE ∧
    AWS_IOT_MQTT_SERVER_MIN_KEEPALIVE ≠ AWS_IOT_MQTT_SERVER_MAX_KEEPALIVE := by
  constructor
  · rfl
  · decide

/-- Claim C4: a will payload of exactly 65535 bytes passes the
payload-size check of `IotMqtt_Connect` (with every other validation
passing, validation succeeds), and any payload strictly larger than
65535 makes `IotMqtt_Connect` return `BAD_PARAMETER` with no connection
established, whatever the other validator verdicts and whatever the
later phases would have produced. -/
theorem connect_will_payload_bound :
    (∀ (nn vc wv cs ps pv : Bool) (n : Nat) (lp : ConnectResult), 65535 < n →
        IotMqtt_Connect nn vc true wv n cs ps pv lp =
          { status := .badParameter, connectionEstablished := false }) ∧
    IotMqtt_ConnectValidate false true true true 65535 false false true = none := by
  refine ⟨?_, by decide⟩
  intro nn vc wv cs ps pv n lp h
  cases nn <;> cases vc <;> cases wv <;> cases cs <;> cases ps <;> cases pv <;>
    simp [IotMqtt_Connect, IotMqtt_ConnectValidate, h]

/-- Witness for C4: payload 65536 is rejected. -/
theorem connect_will_payload_bound_witness :
    (65535 : Nat) < 65536 ∧
    IotMqtt_Connect false true true true 65536 false false true
        { status := .success, connectionEstablished := true } =
      { status := .badParameter, connectionEstablished := false } :=
  ⟨by decide,
   connect_will_payload_bound.1 false true true true false false 65536
     { status := .success, connectionEstablished := true } (by decide)⟩

/-- Claim C5: a QoS 0 PUBLISH with a callback record, or with the
WAITABLE flag, returns `BAD_PARAMETER` before any operation is created
(whatever the validator said and whatever the later steps would do);
a reference output pointer alone causes no error — the status is the
same as without it — and is ignored with a warning. -/
theorem qos0_publish_notification_forbidden :
    ∀ (v cb wa refP createOk serializeOk scheduleOk : Bool),
      ((cb = true ∨ wa = true) →
        IotMqtt_Publish v 0 cb wa refP createOk serializeOk scheduleOk =
          ⟨.badParameter, false, false, false, false, false, false⟩) ∧
      ((IotMqtt_Publish true 0 false false refP createOk serializeOk scheduleOk).status =
          (IotMqtt_Publish true 0 false false false createOk serializeOk scheduleOk).status ∧
       (IotMqtt_Publish true 0 false false refP createOk serializeOk scheduleOk).status ≠
          .badParameter ∧
       (IotMqtt_Publish true 0 false false refP createOk serializeOk
            scheduleOk).warnedIgnoredRef = refP) := by
  decide

/-- Witness for C5: a QoS 0 PUBLISH carrying a callback record is
rejected with no operation created. -/
theorem qos0_publish_notification_forbidden_witness :
    IotMqtt_Publish true 0 true false false true true true =
      ⟨.badParameter, false, false, false, false, false, false⟩ :=
  (qos0_publish_notification_forbidden true true false false true true true).1
    (Or.inl rfl)

/-- Claim C6: whenever `IotMqtt_Publish` validates and schedules its send
job successfully, it returns `STATUS_PENDING` for QoS above 0 and
`SUCCESS` for QoS 0; on every other path it returns one of the error
statuses (`BAD_PARAMETER`, `NO_MEMORY`, `SCHEDULING_ERROR`), never
`STATUS_PENDING` or `SUCCESS`. -/
theorem publish_status_by_qos :
    ∀ (v : Bool) (qos : Nat) (cb wa refP createOk serializeOk scheduleOk : Bool),
      ((IotMqtt_Publish v qos cb wa refP createOk serializeOk scheduleOk).scheduled = true →
        (IotMqtt_Publish v qos cb wa refP createOk serializeOk scheduleOk).status =
          if qos > 0 then .statusPending else .success) ∧
      ((IotMqtt_Publish v qos cb wa refP createOk serializeOk scheduleOk).scheduled = false →
        (IotMqtt_Publish v qos cb wa refP createOk serializeOk scheduleOk).status =
            .badParameter ∨
        (IotMqtt_Publish v qos cb wa refP createOk serializeOk scheduleOk).status =
            .noMemory ∨
        (IotMqtt_Publish v qos cb wa refP createOk serializeOk scheduleOk).status =
            .schedulingError) := by
  intro v qos cb wa refP createOk serializeOk scheduleOk
  cases v <;> cases cb <;> cases wa <;> cases refP <;>
    cases createOk <;> cases serializeOk <;> cases scheduleOk <;>
    cases qos <;> simp [IotMqtt_Publish]

/-- Witness for C6: a fully successful QoS 1 PUBLISH returns
`STATUS_PENDING`, and a QoS 1 PUBLISH whose scheduling failed returns an
error. -/
theorem publish_status_by_qos_witness :
    ((IotMqtt_Publish true 1 false false false true true true).status =
       if 1 > 0 then .statusPending else .success) ∧
    ((IotMqtt_Publish true 1 false false false true true false).status =
        .badParameter ∨
     (IotMqtt_Publish true 1 false false false true true false).status = .noMemory ∨
     (IotMqtt_Publish true 1 false false false true true false).status =
        .schedulingError) :=
  ⟨(publish_status_by_qos true 1 false false false true true true).1 rfl,
   (publish_status_by_qos true 1 false false false true true false).2 rfl⟩

/-- When every flag below `limit` is set, the search loop finds nothing
and leaves the flags unchanged. -/
theorem findFreeAux_all_true :
    ∀ (l : List Bool) (limit : Nat), (∀ i, i < limit → l.getD i true = true) →
      IotStaticMemory_FindFreeAux l limit = (none, l) := by
  intro l
  induction l with
  | nil =>
    intro limit _
    cases limit <;> rfl
  | cons b rest ih =>
    intro limit h
    cases limit with
    | zero => rfl
    | succ n =>
      have hb : b = true := h 0 (Nat.succ_pos n)
      have hrest : ∀ i, i < n → rest.getD i true = true := by
        intro i hi
        exact h (i + 1) (Nat.succ_lt_succ hi)
      simp [IotStaticMemory_FindFreeAux, hb, ih n hrest]

/-- When index `i < limit` holds the first clear flag, the search loop
returns `i` and sets exactly that flag. -/
theorem findFreeAux_first_false :
    ∀ (l : List Bool) (limit i : Nat), i < limit → l.getD i true = false →
      (∀ j, j < i → l.getD j true = true) →
      IotStaticMemory_FindFreeAux l limit = (some i, l.set i true) := by
  intro l
  induction l with
  | nil =>
    intro limit i _ hfalse _
    simp [List.getD] at hfalse
  | cons b rest ih =>
    intro limit i hlt hfalse hbefore
    cases limit with
    | zero => exact absurd hlt (Nat.not_lt_zero i)
    | succ n =>
      cases i with
      | zero =>
        have hb : b = false := hfalse
        simp [IotStaticMemory_FindFreeAux, hb]
      | succ k =>
        have hb : b = true := hbefore 0 (Nat.succ_pos k)
        have hk : rest.getD k true = false := hfalse
        have hkb : ∀ j, j < k → rest.getD j true = true := by
          intro j hj
          exact hbefore (j + 1) (Nat.succ_lt_succ hj)
        have hr := ih n k (Nat.lt_of_succ_lt_succ hlt) hk hkb
        simp [IotStaticMemory_FindFreeAux, hb, hr, List.set]

/-- Claim C10: `IotStaticMemory_FindFree` returns the smallest index
below `limit` whose in-use flag is clear, after setting exactly that
flag; when no flag below `limit` is clear it returns `-1` and leaves the
flags unchanged. -/
theorem findFree_spec :
    ∀ (pInUse : List Bool) (limit : Nat),
      ((∀ i, i < limit → pInUse.getD i true = true) →
        IotStaticMemory_FindFree pInUse limit = (-1, pInUse)) ∧
      (∀ i, i < limit → pInUse.getD i true = false →
        (∀ j, j < i → pInUse.getD j true = true) →
        IotStaticMemory_FindFree pInUse limit = ((i : Int), pInUse.set i true)) := by
  intro pInUse limit
  constructor
  · intro h
    simp [IotStaticMemory_FindFree, findFreeAux_all_true pInUse limit h]
  · intro i hlt hfalse hbefore
    simp [IotStaticMemory_FindFree,
      findFreeAux_first_false pInUse limit i hlt hfalse hbefore]

/-- Witness for C10: on `[true, false, true]` with limit 3 the free
index 1 is returned and marked; on `[true, true]` with limit 2 the
search fails with `-1` and the flags are untouched. -/
theorem findFree_spec_witness :
    IotStaticMemory_FindFree [true, false, true] 3 = (1, [true, true, true]) ∧
    IotStaticMemory_FindFree [true, true] 2 = (-1, [true, true]) :=
  ⟨by
    have h := (findFree_spec [true, false, true] 3).2 1 (by decide) (by decide)
      (by decide)
    simpa using h,
   (findFree_spec [true, true] 2).1 (by decide)⟩

/-- Claim C8: in every execution of `_subscriptionCommon` with
operation UNSUBSCRIBE — whatever the validator, serializer, task-pool
and reference-parameter outcomes — every step that creates, serializes
or schedules the UNSUBSCRIBE packet is strictly preceded in the
execution trace by the removal of the matching subscription-table
entries. -/
theorem unsubscribe_removes_before_send :
    ∀ (validOk waitableFlag refProvided createOk serializeOk addOk scheduleOk : Bool),
      ∀ i : Fin (subscriptionTrace .unsubscribe validOk waitableFlag refProvided
          createOk serializeOk addOk scheduleOk).length,
        sendishEvent ((subscriptionTrace .unsubscribe validOk waitableFlag refProvided
            createOk serializeOk addOk scheduleOk).get i) = true →
        ∃ j : Fin (subscriptionTrace .unsubscribe validOk waitableFlag refProvided
            createOk serializeOk addOk scheduleOk).length,
          (j : Nat) < (i : Nat) ∧
          (subscriptionTrace .unsubscribe validOk waitableFlag refProvided
              createOk serializeOk addOk scheduleOk).get j = .removeByTopicFilter := by
  decide

/-- Witness for C8: in the all-successful UNSUBSCRIBE trace the
operation-creation step at index 2 is preceded by the table removal. -/
theorem unsubscribe_removes_before_send_witness :
    ∃ j : Fin (subscriptionTrace .unsubscribe true true true
        true true true true).length,
      (j : Nat) < 2 ∧
      (subscriptionTrace .unsubscribe true true true
          true true true true).get j = .removeByTopicFilter :=
  unsubscribe_removes_before_send true true true true true true true
    ⟨2, by decide⟩ (by decide)

/-- Claim C9: keep-alive accounts for exactly one connection reference.
A successful `_createKeepAliveJob` with a nonzero keep-alive interval
increments the connection's reference count by exactly 1 and leaves
`keepAliveMs` nonzero (its only call site, `_createMqttConnection`,
guards it with `keepAliveSeconds != 0`); `_destroyMqttConnection`
decrements the reference count by exactly 1 and zeroes the keep-alive
fields iff `keepAliveMs` is nonzero on entry, and otherwise leaves the
reference count and the keep-alive fields untouched. -/
theorem keepalive_owns_one_reference :
    (∀ (serializeOk : Bool) (size ks : Nat) (c : MqttConnection), ks ≠ 0 →
      (createKeepAliveJob serializeOk size ks c).1 = true →
      (createKeepAliveJob serializeOk size ks c).2.references = c.references + 1 ∧
      (createKeepAliveJob serializeOk size ks c).2.keepAliveMs ≠ 0) ∧
    (∀ c : MqttConnection,
      (c.keepAliveMs ≠ 0 →
        (destroyMqttConnection c).references = c.references - 1 ∧
        (destroyMqttConnection c).keepAliveMs = 0 ∧
        (destroyMqttConnection c).pPingreqPacket = false ∧
        (destroyMqttConnection c).pingreqPacketSize = 0) ∧
      (c.keepAliveMs = 0 →
        (destroyMqttConnection c).references = c.references ∧
        (destroyMqttConnection c).keepAliveMs = c.keepAliveMs ∧
        (destroyMqttConnection c).pPingreqPacket = c.pPingreqPacket ∧
        (destroyMqttConnection c).pingreqPacketSize = c.pingreqPacketSize)) := by
  constructor
  · intro serializeOk size ks c hks hsuccess
    cases serializeOk with
    | false => simp [createKeepAliveJob] at hsuccess
    | true =>
      refine ⟨by simp [createKeepAliveJob], ?_⟩
      have h1000 : (1000 : Nat) ≠ 0 := by decide
      simpa [createKeepAliveJob] using Nat.mul_ne_zero hks h1000
  · intro c
    constructor
    · intro h
      simp [destroyMqttConnection, h]
    · intro h
      simp [destroyMqttConnection, h]

/-- Witness for C9: a successful keep-alive creation at 60 seconds on a
fresh connection adds one reference, and destroying a connection whose
keep-alive is live drops it again. -/
theorem keepalive_owns_one_reference_witness :
    ((createKeepAliveJob true 2 60
        ⟨false, false, 1, 0, 0, false, 0, [], [], []⟩).2.references =
      (1 : Int) + 1 ∧
     (createKeepAliveJob true 2 60
        ⟨false, false, 1, 0, 0, false, 0, [], [], []⟩).2.keepAliveMs ≠ 0) ∧
    ((destroyMqttConnection ⟨false, false, 2, 60000, 60000, true, 2, [], [], []⟩).references =
        (2 : Int) - 1 ∧
     (destroyMqttConnection ⟨false, false, 2, 60000, 60000, true, 2, [], [], []⟩).keepAliveMs = 0 ∧
     (destroyMqttConnection ⟨false, false, 2, 60000, 60000, true, 2, [], [], []⟩).pPingreqPacket = false ∧
     (destroyMqttConnection ⟨false, false, 2, 60000, 60000, true, 2, [], [], []⟩).pingreqPacketSize = 0) :=
  ⟨keepalive_owns_one_reference.1 true 2 60
      ⟨false, false, 1, 0, 0, false, 0, [], [], []⟩ (by decide) rfl,
   (keepalive_owns_one_reference.2 ⟨false, false, 2, 60000, 60000, true, 2, [], [], []⟩).1
      (by decide)⟩

/-- Counterexample to claim C2: calling `IotMqtt_Disconnect` on a
connection already marked disconnected is not a no-op.  On a connection
with one reference and one queued operation, it still closes the network
connection, empties the operation queues, and decrements the reference
count to 0, destroying the connection. -/
theorem double_disconnect_not_noop :
    (IotMqtt_Disconnect id
        ⟨false, true, 1, 0, 0, false, 0, [], [⟨1, false⟩], []⟩ false).closedNetworkConnection
      = true ∧
    (IotMqtt_Disconnect id
        ⟨false, true, 1, 0, 0, false, 0, [], [⟨1, false⟩], []⟩ false).conn.pendingProcessing
      = [] ∧
    (IotMqtt_Disconnect id
        ⟨false, true, 1, 0, 0, false, 0, [], [⟨1, false⟩], []⟩ false).conn.references = 0 ∧
    (IotMqtt_Disconnect id
        ⟨false, true, 1, 0, 0, false, 0, [], [⟨1, false⟩], []⟩ false).destroyed = true := by
  decide

/-- Claim C2 as amended: on an already-disconnected connection,
`IotMqtt_Disconnect` creates, serializes, schedules and waits on no
DISCONNECT packet (the packet phase is skipped, whatever it would have
done), but it still closes the network connection, removes every
operation from both queues — destroying those whose job cancel succeeds
and whose count reaches 0 — and decrements the connection's reference
count by 1 beyond the drops from keep-alive cleanup and destroyed queued
operations. -/
theorem disconnect_already_disconnected (f : MqttConnection → MqttConnection)
    (c : MqttConnection) (cleanupOnly : Bool) (h : c.disconnected = true) :
    (IotMqtt_Disconnect f c cleanupOnly).packetPhaseRan = false ∧
    (IotMqtt_Disconnect f c cleanupOnly).closedNetworkConnection = true ∧
    (IotMqtt_Disconnect f c cleanupOnly).conn.disconnected = true ∧
    (IotMqtt_Disconnect f c cleanupOnly).conn.pendingProcessing = [] ∧
    (IotMqtt_Disconnect f c cleanupOnly).conn.pendingResponse = [] ∧
    (IotMqtt_Disconnect f c cleanupOnly).conn.references =
      c.references - (if c.keepAliveMs ≠ 0 then 1 else 0)
        - (destroyedCount c.pendingProcessing + destroyedCount c.pendingResponse)
        - 1 := by
  obtain ⟨aws, disc, refs, ka, nka, pk, pks, sl, pp, pr⟩ := c
  simp only at h
  subst h
  simp only [IotMqtt_Disconnect, closeNetworkConnection, destroyMqttConnection]
  by_cases hk : ka = 0 <;>
    simp [hk] <;> split_ifs <;> simp_all

/-- Witness for C2: the amended behavior at a concrete
already-disconnected connection. -/
theorem disconnect_already_disconnected_witness :
    (IotMqtt_Disconnect id
        ⟨true, true, 3, 5000, 5000, true, 2, [], [], [⟨2, true⟩]⟩ false).packetPhaseRan
      = false ∧
    (IotMqtt_Disconnect id
        ⟨true, true, 3, 5000, 5000, true, 2, [], [], [⟨2, true⟩]⟩ false).closedNetworkConnection
      = true ∧
    (IotMqtt_Disconnect id
        ⟨true, true, 3, 5000, 5000, true, 2, [], [], [⟨2, true⟩]⟩ false).conn.disconnected
      = true ∧
    (IotMqtt_Disconnect id
        ⟨true, true, 3, 5000, 5000, true, 2, [], [], [⟨2, true⟩]⟩ false).conn.pendingProcessing
      = [] ∧
    (IotMqtt_Disconnect id
        ⟨true, true, 3, 5000, 5000, true, 2, [], [], [⟨2, true⟩]⟩ false).conn.pendingResponse
      = [] ∧
    (IotMqtt_Disconnect id
        ⟨true, true, 3, 5000, 5000, true, 2, [], [], [⟨2, true⟩]⟩ false).conn.references =
      (3 : Int) - (if (5000 : Nat) ≠ 0 then 1 else 0)
        - (destroyedCount [] + destroyedCount [⟨2, true⟩]) - 1 :=
  disconnect_already_disconnected id
    ⟨true, true, 3, 5000, 5000, true, 2, [], [], [⟨2, true⟩]⟩ false rfl

/-- Counterexample to claim C3: when `_IotMqtt_ValidateReference`
rejects the reference, `IotMqtt_Wait` returns `BAD_PARAMETER` without
decrementing the operation's reference count at all (it stays at 2),
contradicting "decremented exactly once regardless of the returned
status, including BAD_PARAMETER". -/
theorem wait_invalid_reference_no_decrement :
    IotMqtt_Wait false false false false .publishToServer .success 2 =
      ⟨.badParameter, 2, false, false⟩ ∧ (2 : Int) ≠ 2 - 1 := by
  decide

/-- Claim C3 as amended: for every `IotMqtt_Wait` call whose reference
passes validation, the caller's reference is decremented exactly once —
the timeout path additionally releases the task pool's reference when
the job cancel succeeds — and the operation is destroyed exactly when
the caller's decrement brings the count to 0; the returned status is
`NETWORK_ERROR` on a disconnected connection, `TIMEOUT` on semaphore
expiry, and otherwise the operation's own status.  When validation
fails, `BAD_PARAMETER` is returned and the reference count is untouched. -/
theorem wait_reference_handling :
    ∀ (disconnected timedOut cancelSucceeds : Bool)
      (operation : IotMqttOperationType) (opStatus : IotMqttError) (refs : Int),
      (IotMqtt_Wait true disconnected timedOut cancelSucceeds operation opStatus
          refs).opReferences =
        refs - (if disconnected = false ∧ timedOut = true ∧ cancelSucceeds = true
                then 1 else 0) - 1 ∧
      ((IotMqtt_Wait true disconnected timedOut cancelSucceeds operation opStatus
          refs).operationDestroyed = true ↔
        (IotMqtt_Wait true disconnected timedOut cancelSucceeds operation opStatus
          refs).opReferences = 0) ∧
      (IotMqtt_Wait true disconnected timedOut cancelSucceeds operation opStatus
          refs).status =
        (if disconnected = true then .networkError
         else if timedOut = true then .timeout else opStatus) ∧
      IotMqtt_Wait false disconnected timedOut cancelSucceeds operation opStatus refs =
        ⟨.badParameter, refs, false, false⟩ := by
  intro disconnected timedOut cancelSucceeds operation opStatus refs
  cases disconnected <;> cases timedOut <;> cases cancelSucceeds <;>
    simp [IotMqtt_Wait, decrementOperationReferences]

/-- `addOneSubscription` preserves "every entry filed under `pid` is
unreferenced": a QoS update changes neither the packet identifier nor
the reference count, and a fresh entry starts with reference count 0. -/
theorem addOneSubscription_refs_zero {t : List MqttSubscription} {pid : Nat}
    {e : IotMqttSubscription}
    (h : ∀ s ∈ t, s.packetId = pid → s.references = 0) :
    ∀ s ∈ addOneSubscription t pid e, s.packetId = pid → s.references = 0 := by
  intro s hs
  unfold addOneSubscription at hs
  split at hs
  · rcases List.mem_map.1 hs with ⟨s0, hs0, rfl⟩
    by_cases hc : (s0.topicFilter == e.topicFilter && s0.callback == e.callback) = true
    · simpa [hc] using h s0 hs0
    · simpa [hc] using h s0 hs0
  · rcases List.mem_append.1 hs with hmem | hmem
    · exact h s hmem
    · rcases List.mem_singleton.1 hmem with rfl
      intro _
      rfl

/-- `addSubscriptions` preserves "every entry filed under `pid` is
unreferenced". -/
theorem addSubscriptions_refs_zero (pid : Nat) (l : List IotMqttSubscription) :
    ∀ t : List MqttSubscription, (∀ s ∈ t, s.packetId = pid → s.references = 0) →
      ∀ s ∈ addSubscriptions t pid l, s.packetId = pid → s.references = 0 := by
  induction l with
  | nil => intro t h; exact h
  | cons e rest ih =>
    intro t h
    exact ih (addOneSubscription t pid e) (addOneSubscription_refs_zero h)

/-- When every entry filed under `pid` is unreferenced,
`removeSubscriptionByPacket` removes all of them: no entry carrying
`pid` survives. -/
theorem removeSubscriptionByPacket_clears {t : List MqttSubscription} {pid : Nat}
    (h : ∀ s ∈ t, s.packetId = pid → s.references = 0) :
    ∀ s ∈ removeSubscriptionByPacket t pid, s.packetId ≠ pid := by
  intro s hs
  rcases List.mem_filterMap.1 hs with ⟨a, ha, hfa⟩
  by_cases hp : a.packetId = pid
  · simp [removeSubscriptionByPacket, hp, h a ha hp] at hfa
  · simp only [hp, if_neg, ite_false, Option.some.injEq] at hfa
    subst hfa
    exact hp

/-- Claim C7 as amended: when scheduling a SUBSCRIBE's send job fails
after its entries were filed, `_subscriptionCommon` rolls back by
removing the entries under the operation's packet identifier, resets a
provided reference output, destroys the operation, and returns the
scheduling error; provided the packet identifier is fresh (no
pre-existing referenced entry carries it), no entry filed under it
survives the rollback — but the table need not equal its pre-call state,
because a SUBSCRIBE matching an existing (filter, callback) pair updates
that entry's QoS in place and the rollback does not restore it. -/
theorem subscribe_schedule_failure_rollback
    (table : List MqttSubscription) (list : List IotMqttSubscription) (pid : Nat)
    (waitableFlag refProvided : Bool)
    (href : waitableFlag = true → refProvided = true)
    (hfresh : ∀ s ∈ table, s.packetId = pid → s.references = 0) :
    subscriptionCommon .subscribe table list pid true waitableFlag refProvided
        true true true false =
      ⟨.schedulingError,
       removeSubscriptionByPacket (addSubscriptions table pid list) pid,
       refProvided, refProvided, true⟩ ∧
    ∀ s ∈ (subscriptionCommon .subscribe table list pid true waitableFlag refProvided
        true true true false).table, s.packetId ≠ pid := by
  have hcond : (waitableFlag = true && refProvided = false) = false := by
    cases waitableFlag
    · simp
    · simp [href rfl]
  have heq : subscriptionCommon .subscribe table list pid true waitableFlag refProvided
      true true true false =
      ⟨.schedulingError,
       removeSubscriptionByPacket (addSubscriptions table pid list) pid,
       refProvided, refProvided, true⟩ := by
    simp [subscriptionCommon, hcond]
    exact href
  refine ⟨heq, ?_⟩
  rw [heq]
  exact removeSubscriptionByPacket_clears (addSubscriptions_refs_zero pid list table hfresh)

/-- Witness for C7: the amended rollback at a concrete SUBSCRIBE of one
topic whose scheduling fails. -/
theorem subscribe_schedule_failure_rollback_witness :
    subscriptionCommon .subscribe [] [⟨"t", 0, 1⟩] 3 true false false
        true true true false =
      ⟨.schedulingError,
       removeSubscriptionByPacket (addSubscriptions [] 3 [⟨"t", 0, 1⟩]) 3,
       false, false, true⟩ ∧
    ∀ s ∈ (subscriptionCommon .subscribe [] [⟨"t", 0, 1⟩] 3 true false false
        true true true false).table, s.packetId ≠ 3 :=
  subscribe_schedule_failure_rollback [] [⟨"t", 0, 1⟩] 3 false false
    (fun h => h) (by simp)

/-- Counterexample to claim C7 as stated: a SUBSCRIBE of topics "a" and
"b" on a table already holding ("a", callback 7) updates "a"'s QoS in
place and inserts "b" under the new packet identifier 2; when scheduling
then fails, the rollback removes "b" but leaves "a" with the updated
QoS, so the table is NOT left as it was before the call even though the
scheduling error is returned and the packet-identifier entries were
removed. -/
theorem subscribe_rollback_table_not_restored :
    (subscriptionCommon .subscribe [⟨"a", 0, 7, 1, false, 0⟩]
        [⟨"a", 1, 7⟩, ⟨"b", 0, 8⟩] 2 true false false true true true false).status =
      .schedulingError ∧
    (⟨"b", 0, 8, 2, false, 0⟩ : MqttSubscription) ∈
      addSubscriptions [⟨"a", 0, 7, 1, false, 0⟩] 2 [⟨"a", 1, 7⟩, ⟨"b", 0, 8⟩] ∧
    (subscriptionCommon .subscribe [⟨"a", 0, 7, 1, false, 0⟩]
        [⟨"a", 1, 7⟩, ⟨"b", 0, 8⟩] 2 true false false true true true false).table ≠
      [⟨"a", 0, 7, 1, false, 0⟩] := by
  decide
